import Mathlib

/-!
Verification development for a Telegram wagering bot (`main.py`).

The embedding models the persisted account state (`users.json` records), the
in-memory session registries (`active_rocket_games`, `active_matrix_games`,
`active_dice_games`), the pending-invoice registry (`active_invoices`) and the
pure outcome computations, translated directly from the Python source.
Monetary amounts and timestamps (seconds) are modelled as rationals; Python
floats carry exact decimal literals in all scenarios considered here.
A Python function that can raise is modelled with `Except`: on `error` the
corresponding `save_users` call is never reached, so the persisted state is
the unchanged input state.
-/

namespace Casa

/-- The `balance_type : str` parameter of `User.deposit` / `User.withdraw`
(`'balance'` = real funds, `'virtual_balance'` = virtual funds). -/
inductive BalanceType
  | balance
  | virtual_balance
deriving Repr, DecidableEq

/-- `MIN_BET` (main.py line 29, default `0.1`). -/
def MIN_BET : ℚ := 1/10

/-- `MAX_BET` (main.py line 30, default `1000`). -/
def MAX_BET : ℚ := 1000

/-- `DAILY_VIRTUAL_LIMIT = 100.0` (main.py line 79). -/
def DAILY_VIRTUAL_LIMIT : ℚ := 100

/-- `VIRTUAL_DEPOSIT_RESET = timedelta(days=1)` (main.py line 80), in seconds. -/
def VIRTUAL_DEPOSIT_RESET : ℚ := 86400

/-- Persisted per-user record (`users.json` entry plus the aggregate statistics
kept on the `User` object, main.py lines 162-177). -/
structure UserState where
  balance : ℚ
  virtual_balance : ℚ
  use_virtual : Bool
  daily_virtual_deposited : ℚ
  last_virtual_deposit_time : Option ℚ
  total_bets : ℚ
  total_wins : ℚ
  games_played : ℕ
deriving Repr, DecidableEq

/-- The error raised by `User.deposit` when the daily virtual-issuance cap is
exceeded (main.py lines 210-212); carries the remaining wait time in seconds
(the source formats it as hours and minutes). -/
inductive DepositError
  | limitExceeded (timeLeft : ℚ)
deriving Repr, DecidableEq

/-- The daily counter after the rolling-window check of `User.deposit`
(main.py lines 193-199): if 24h have elapsed since the last virtual deposit,
the counter is reset to `0`; otherwise it is unchanged. -/
def dailyAfterReset (u : UserState) (now : ℚ) : ℚ :=
  match u.last_virtual_deposit_time with
  | some last => if VIRTUAL_DEPOSIT_RESET ≤ now - last then 0 else u.daily_virtual_deposited
  | none => u.daily_virtual_deposited

/-- The window-start timestamp recorded by a successful `User.deposit`
(main.py lines 199, 201): restarted on reset or first deposit, else kept. -/
def lastAfterReset (u : UserState) (now : ℚ) : ℚ :=
  match u.last_virtual_deposit_time with
  | some last => if VIRTUAL_DEPOSIT_RESET ≤ now - last then now else last
  | none => now

/-- `User.deposit` (main.py lines 179-227). Real deposits always succeed.
Virtual deposits first apply the 24-hour window reset, then fail with
`limitExceeded` if the daily counter plus the amount exceeds the cap
(in which case `save_users` is never reached and nothing is persisted),
else credit the balance and bump the counter. -/
def UserState.deposit (u : UserState) (amount : ℚ) (bt : BalanceType) (now : ℚ) :
    Except DepositError UserState :=
  match bt with
  | .balance => .ok { u with balance := u.balance + amount }
  | .virtual_balance =>
    if DAILY_VIRTUAL_LIMIT < dailyAfterReset u now + amount then
      -- time_passed is computed from the pre-call window start (main.py lines 203-205)
      .error (.limitExceeded (VIRTUAL_DEPOSIT_RESET -
        (match u.last_virtual_deposit_time with
         | some last => now - last
         | none => 0)))
    else
      .ok { u with
        virtual_balance := u.virtual_balance + amount,
        daily_virtual_deposited := dailyAfterReset u now + amount,
        last_virtual_deposit_time := some (lastAfterReset u now) }

/-- The balance selected by a `balance_type` string (main.py line 231). -/
def UserState.getBalance (u : UserState) (bt : BalanceType) : ℚ :=
  match bt with
  | .balance => u.balance
  | .virtual_balance => u.virtual_balance

/-- `User.withdraw` (main.py lines 229-241): debit and return `true` when the
selected balance suffices, else return `false` leaving the state untouched. -/
def UserState.withdraw (u : UserState) (amount : ℚ) (bt : BalanceType) :
    Bool × UserState :=
  if amount ≤ u.getBalance bt then
    match bt with
    | .balance => (true, { u with balance := u.balance - amount })
    | .virtual_balance => (true, { u with virtual_balance := u.virtual_balance - amount })
  else (false, u)

/-- `User.add_win` (main.py lines 243-246). -/
def UserState.add_win (u : UserState) (amount : ℚ) : UserState :=
  { u with total_wins := u.total_wins + amount }

/-- `User.add_bet` (main.py lines 248-252). -/
def UserState.add_bet (u : UserState) (amount : ℚ) : UserState :=
  { u with total_bets := u.total_bets + amount, games_played := u.games_played + 1 }

/-- `User.toggle_balance_type` (main.py lines 254-260). -/
def UserState.toggle_balance_type (u : UserState) : UserState :=
  { u with use_virtual := !u.use_virtual }

/-- `ROCKET_CRASH_PROBABILITIES` (main.py lines 63-69): ordered
`(threshold multiplier, cumulative probability)` bands. -/
def ROCKET_CRASH_PROBABILITIES : List (ℚ × ℚ) :=
  [(11/10, 1/10), (3/2, 3/10), (3, 3/5), (5, 9/10), (25, 1)]

/-- The band loop of `rocket_bet` (main.py lines 842-851).  `i` is the loop
index and `prev` the previous band; in the source the previous band is fetched
with `.index((threshold, prob)) - 1`, which coincides with the iteration
position because all pairs of the table are distinct.  If no band satisfies
`rand <= prob` the initial value `1.0` (main.py line 841) is kept. -/
def crashLoop (rand : ℚ) : ℕ → ℚ × ℚ → List (ℚ × ℚ) → ℚ
  | _, _, [] => 1
  | i, prev, (t, p) :: rest =>
    if rand ≤ p then
      if i = 0 then 1 + (t - 1) * (rand / p)
      else prev.1 + (t - prev.1) * ((rand - prev.2) / (p - prev.2))
    else crashLoop rand (i + 1) (t, p) rest

/-- The crash point computed by `rocket_bet` from the random draw
(main.py lines 840-853), including the final clamp
`crash_at = max(crash_at, 1.01)`. -/
def crash_point (rand : ℚ) : ℚ :=
  max (crashLoop rand 0 (1, 0) ROCKET_CRASH_PROBABILITIES) (101/100)

/-- `MATRIX_MULTIPLIERS = [1.0] + [1.2 ** i for i in range(1, 10)]`
(main.py line 72). -/
def MATRIX_MULTIPLIERS : List ℚ :=
  1 :: (List.range 9).map (fun i => (6/5) ^ (i + 1))

/-- `DICE_MULTIPLIERS = {1: 2.0, 2: 6.0}` (main.py lines 73-76); the dict is
only ever read at keys `1` (parity bet) and `2` (exact-face bet). -/
def DICE_MULTIPLIERS (betType : ℕ) : ℚ :=
  if betType = 1 then 2 else 6

/-- Entry of `active_rocket_games` (main.py lines 854-863; presentation-only
fields `message_id`, `chat_id`, `initiator_id` omitted).  The field
`crash_target` is the dict key `'crash_at'`. -/
structure RocketGame where
  bet : ℚ
  multiplier : ℚ
  crashed : Bool
  crash_target : ℚ
  balance_type : BalanceType
deriving Repr, DecidableEq

/-- Entry of `active_matrix_games` (main.py lines 1108-1115; presentation-only
fields omitted). -/
structure MatrixGame where
  bet : ℚ
  current_level : ℕ
  balance_type : BalanceType
deriving Repr, DecidableEq

/-- Entry of `active_dice_games` (main.py lines 1394-1400; presentation-only
fields omitted). -/
structure DiceGame where
  bet : ℚ
  balance_type : BalanceType
deriving Repr, DecidableEq

/-- Entry of `active_invoices` (main.py lines 341-345). -/
structure Invoice where
  user_id : ℤ
  amount : ℚ
  paid : Bool
deriving Repr, DecidableEq

/-- The mutable shared state: persisted user records (`users.json`, reloaded
on every `get_user`) and the four in-memory registries (main.py lines 56-60).
Registries are modelled as total maps into `Option`: `none` means the key is
absent from the dict. -/
structure GlobalState where
  users : ℤ → UserState
  active_rocket_games : ℤ → Option RocketGame
  active_matrix_games : ℤ → Option MatrixGame
  active_dice_games : ℤ → Option DiceGame
  active_invoices : ℕ → Option Invoice

/-- Persist a user record (`save_users` after mutating one entry). -/
def GlobalState.saveUser (s : GlobalState) (uid : ℤ) (u : UserState) : GlobalState :=
  { s with users := fun i => if i = uid then u else s.users i }

/-- Write (or with `none`, delete) the rocket-session entry of one user. -/
def GlobalState.setRocket (s : GlobalState) (uid : ℤ) (g : Option RocketGame) : GlobalState :=
  { s with active_rocket_games := fun i => if i = uid then g else s.active_rocket_games i }

/-- Write (or with `none`, delete) the matrix-session entry of one user. -/
def GlobalState.setMatrix (s : GlobalState) (uid : ℤ) (g : Option MatrixGame) : GlobalState :=
  { s with active_matrix_games := fun i => if i = uid then g else s.active_matrix_games i }

/-- Write (or with `none`, delete) the dice-session entry of one user. -/
def GlobalState.setDice (s : GlobalState) (uid : ℤ) (g : Option DiceGame) : GlobalState :=
  { s with active_dice_games := fun i => if i = uid then g else s.active_dice_games i }

/-- Write one pending-invoice entry. -/
def GlobalState.setInvoice (s : GlobalState) (id : ℕ) (inv : Invoice) : GlobalState :=
  { s with active_invoices := fun i => if i = id then some inv else s.active_invoices i }

/-- The balance that funds games for this user: virtual when `use_virtual`
is set, else real (main.py line 803 and analogues). -/
def activeBt (u : UserState) : BalanceType :=
  if u.use_virtual then .virtual_balance else .balance

/-- `rocket_bet` (main.py lines 787-867), state effects of an owner-submitted
numeric bet.  Any existing rocket session of the user is deleted up front
(lines 799-801), before the bet is even validated.  A bet below `MIN_BET`,
above `MAX_BET` or above the selected balance is declined (re-prompt, no state
change beyond the deletion).  Otherwise the stake is withdrawn, the wager
statistic is recorded, and a fresh session with the drawn crash point is
registered. -/
def rocket_bet (s : GlobalState) (uid : ℤ) (bet_amount : ℚ) (rand : ℚ) : GlobalState :=
  let s1 := s.setRocket uid none
  let u := s1.users uid
  if bet_amount < MIN_BET then s1
  else if MAX_BET < bet_amount then s1
  else if u.getBalance (activeBt u) < bet_amount then s1
  else
    let u2 := ((u.withdraw bet_amount (activeBt u)).2).add_bet bet_amount
    (s1.saveUser uid u2).setRocket uid (some
      { bet := bet_amount, multiplier := 1, crashed := false,
        crash_target := crash_point rand, balance_type := activeBt u })

/-- One tick of `update_multiplier` inside `run_rocket_game`
(main.py lines 902-995), state effects only.  The stored multiplier is
recomputed from the elapsed time (line 909-910); if it has reached the crash
point and the game is not yet resolved, the session is resolved as a loss and
deleted (lines 912-935); a session already marked `crashed` is left in place
with the updated multiplier (the tick returns without deleting it). -/
def update_multiplier (s : GlobalState) (uid : ℤ) (elapsed : ℚ) : GlobalState :=
  match s.active_rocket_games uid with
  | none => s
  | some g =>
    let crash_time := g.crash_target * 3
    let m := 1 + (g.crash_target - 1) * (elapsed / crash_time)
    if g.crash_target ≤ m ∨ g.crashed then
      if g.crashed then s.setRocket uid (some { g with multiplier := m })
      else s.setRocket uid none
    else s.setRocket uid (some { g with multiplier := m })

/-- Outcome reported by `rocket_cashout` in the embedding. -/
inductive CashoutOutcome
  | alreadyOver
  | paid (win : ℚ)
  | depositError (e : DepositError)
deriving Repr, DecidableEq

/-- `rocket_cashout` (main.py lines 1000-1055), acting owner assumed (a
non-owner press is rejected with an alert and no state change, line 1018).
With no live session the game is reported over.  Otherwise the session is
marked resolved (line 1039) and the win `bet * multiplier` is deposited; if
the deposit raises (virtual cap), nothing is persisted and the marked session
is not deleted (lines 1054-1055 are skipped). -/
def rocket_cashout (s : GlobalState) (uid : ℤ) (now : ℚ) :
    GlobalState × CashoutOutcome :=
  match s.active_rocket_games uid with
  | none => (s, .alreadyOver)
  | some g =>
    if g.crashed then (s, .alreadyOver)
    else
      let win := g.bet * g.multiplier
      match (s.users uid).deposit win g.balance_type now with
      | .error e => (s.setRocket uid (some { g with crashed := true }), .depositError e)
      | .ok u' => ((s.saveUser uid (u'.add_win win)).setRocket uid none, .paid win)

/-- `matrix_bet` (main.py lines 1057-1154), state effects of an
owner-submitted numeric bet.  Invalid or unfunded bets are declined with no
state change; a valid bet withdraws the stake, records the wager and writes a
fresh level-0 session, overwriting any existing matrix session of the user
(line 1108) and never consulting the rocket or dice registries. -/
def matrix_bet (s : GlobalState) (uid : ℤ) (bet_amount : ℚ) : GlobalState :=
  let u := s.users uid
  if bet_amount < MIN_BET then s
  else if MAX_BET < bet_amount then s
  else if u.getBalance (activeBt u) < bet_amount then s
  else
    let u2 := ((u.withdraw bet_amount (activeBt u)).2).add_bet bet_amount
    (s.saveUser uid u2).setMatrix uid (some
      { bet := bet_amount, current_level := 0, balance_type := activeBt u })

/-- `show_matrix_level` (main.py lines 1156-1258), state effects only.  When
the current level has exhausted the multiplier table the session auto-settles
at the last (maximum) multiplier and is deleted (lines 1162-1180); if that
deposit raises, nothing is persisted and the session stays.  Otherwise the
function only renders the level keyboard (the level-0 keyboard carries a
disabled cash-out control, lines 1182-1201) and changes no account or session
state. -/
def show_matrix_level (s : GlobalState) (uid : ℤ) (now : ℚ) : GlobalState :=
  match s.active_matrix_games uid with
  | none => s
  | some g =>
    if MATRIX_MULTIPLIERS.length ≤ g.current_level then
      let win := g.bet * MATRIX_MULTIPLIERS.getLastD 1
      match (s.users uid).deposit win g.balance_type now with
      | .error _ => s
      | .ok u' => (s.saveUser uid (u'.add_win win)).setMatrix uid none
    else s

/-- The four callback shapes handled by `matrix_choice`
(`matrix_disabled_*`, `matrix_correct_*`, `matrix_bomb_*`,
`matrix_cashout_*`). -/
inductive MatrixAction
  | disabled
  | correct
  | bomb
  | cashout
deriving Repr, DecidableEq

/-- `matrix_choice` (main.py lines 1260-1341), acting owner assumed (a
non-owner press is rejected with an alert and no state change, line 1279).
`disabled` — the cash-out control shown at level 0 — only raises an alert
(lines 1292-1294).  `correct` advances one level and re-renders (which may
auto-settle).  `bomb` deletes the session with no payout.  `cashout` pays
`bet * MATRIX_MULTIPLIERS[current_level]` and deletes the session; if the
deposit raises, or the level indexes past the table (Python `IndexError` at
line 1319), nothing is persisted. -/
def matrix_choice (s : GlobalState) (uid : ℤ) (a : MatrixAction) (now : ℚ) : GlobalState :=
  match s.active_matrix_games uid with
  | none => s
  | some g =>
    match a with
    | .disabled => s
    | .correct =>
      show_matrix_level
        (s.setMatrix uid (some { g with current_level := g.current_level + 1 })) uid now
    | .bomb => s.setMatrix uid none
    | .cashout =>
      if h : g.current_level < MATRIX_MULTIPLIERS.length then
        let win := g.bet * MATRIX_MULTIPLIERS.get ⟨g.current_level, h⟩
        match (s.users uid).deposit win g.balance_type now with
        | .error _ => s
        | .ok u' => (s.saveUser uid (u'.add_win win)).setMatrix uid none
      else s

/-- `dice_bet` (main.py lines 1343-1441), state effects of an owner-submitted
numeric bet: validation as in the other games, then stake withdrawal, wager
statistic, and a fresh single-shot session (overwriting any existing dice
session, line 1394). -/
def dice_bet (s : GlobalState) (uid : ℤ) (bet_amount : ℚ) : GlobalState :=
  let u := s.users uid
  if bet_amount < MIN_BET then s
  else if MAX_BET < bet_amount then s
  else if u.getBalance (activeBt u) < bet_amount then s
  else
    let u2 := ((u.withdraw bet_amount (activeBt u)).2).add_bet bet_amount
    (s.saveUser uid u2).setDice uid (some
      { bet := bet_amount, balance_type := activeBt u })

/-- The bet-type selections handled by `dice_choice` (`dice_even_*`,
`dice_odd_*`, `dice_<n>_*`). -/
inductive DiceChoice
  | even
  | odd
  | exact (n : ℕ)
deriving Repr, DecidableEq

/-- The `bet_type` selected by `dice_choice` (main.py lines 1476-1486):
`1` for parity bets, `2` for exact-face bets. -/
def diceBetType : DiceChoice → ℕ
  | .even => 1
  | .odd => 1
  | .exact _ => 2

/-- The `win_condition` of `dice_choice` (main.py lines 1480-1488). -/
def diceWinCondition (c : DiceChoice) (dice_result : ℕ) : Bool :=
  match c with
  | .even => dice_result % 2 == 0
  | .odd => dice_result % 2 == 1
  | .exact n => n == dice_result

/-- `dice_choice` (main.py lines 1443-1517), acting owner assumed; the die
roll (line 1475) is passed explicitly.  Parity bets use multiplier
`DICE_MULTIPLIERS[1]`, exact-face bets `DICE_MULTIPLIERS[2]`.  On a win the
payout is deposited and recorded, and the session is deleted; if the deposit
raises, nothing is persisted and the session stays.  On a loss the session is
simply deleted.  The returned option is the win amount paid, if any. -/
def dice_choice (s : GlobalState) (uid : ℤ) (c : DiceChoice) (dice_result : ℕ) (now : ℚ) :
    GlobalState × Option ℚ :=
  match s.active_dice_games uid with
  | none => (s, none)
  | some g =>
    if diceWinCondition c dice_result then
      let win := g.bet * DICE_MULTIPLIERS (diceBetType c)
      match (s.users uid).deposit win g.balance_type now with
      | .error _ => (s, none)
      | .ok u' => ((s.saveUser uid (u'.add_win win)).setDice uid none, some win)
    else (s.setDice uid none, none)

/-- One iteration of the invoice loop of `check_invoices`
(main.py lines 369-387): an item reported paid whose local record exists and
is still unpaid has its amount credited to the owner's real balance and its
`paid` flag set (lines 375-380, in that order, before the notification);
every other item leaves the state unchanged. -/
def check_invoice_step (now : ℚ) (st : GlobalState) (item : ℕ × Bool) : GlobalState :=
  if item.2 then
    match st.active_invoices item.1 with
    | some inv =>
      if inv.paid then st
      else
        match (st.users inv.user_id).deposit inv.amount .balance now with
        | .ok u' => (st.saveUser inv.user_id u').setInvoice item.1 { inv with paid := true }
        | .error _ => st
    | none => st
  else st

/-- `check_invoices` (main.py lines 353-389), the reconciliation poll.  The
external response is modelled as a list of `(invoice_id, status == "paid")`
pairs (non-dict or non-paid items are skipped, lines 370-373). -/
def check_invoices (s : GlobalState) (items : List (ℕ × Bool)) (now : ℚ) : GlobalState :=
  items.foldl (check_invoice_step now) s

/-- An invoice id is settled in a state when its local record, if present,
is already marked paid. -/
def invoiceSettled (s : GlobalState) (id : ℕ) : Prop :=
  ∀ inv, s.active_invoices id = some inv → inv.paid = true

/-- An operation of the engine: a direct ledger operation (`User.deposit`,
`User.withdraw`, statistics, currency toggle — main.py lines 179-260), invoice
registration (`create_crypto_invoice`, lines 341-345) and reconciliation, or
one of the game handlers modelled above.  A raising deposit persists nothing,
so the state is unchanged. -/
inductive Op
  | deposit (uid : ℤ) (amount : ℚ) (bt : BalanceType) (now : ℚ)
  | withdraw (uid : ℤ) (amount : ℚ) (bt : BalanceType)
  | add_bet (uid : ℤ) (amount : ℚ)
  | add_win (uid : ℤ) (amount : ℚ)
  | toggle (uid : ℤ)
  | createInvoice (id : ℕ) (uid : ℤ) (amount : ℚ)
  | checkInvoices (items : List (ℕ × Bool)) (now : ℚ)
  | rocketBet (uid : ℤ) (bet : ℚ) (rand : ℚ)
  | rocketTick (uid : ℤ) (elapsed : ℚ)
  | rocketCashout (uid : ℤ) (now : ℚ)
  | matrixBet (uid : ℤ) (bet : ℚ)
  | matrixChoice (uid : ℤ) (a : MatrixAction) (now : ℚ)
  | diceBet (uid : ℤ) (bet : ℚ)
  | diceChoice (uid : ℤ) (c : DiceChoice) (roll : ℕ) (now : ℚ)

/-- The stated precondition of each operation: externally supplied monetary
amounts are positive (deposit amounts are validated as `>= 1` or `> 0` by
their callers, main.py lines 571, 641, 1637, 1740) and elapsed wall-clock
time is non-negative.  Game-handler inputs need no precondition: bets are
validated inside the handlers. -/
def Op.valid : Op → Prop
  | .deposit _ amount _ _ => 0 < amount
  | .withdraw _ amount _ => 0 < amount
  | .add_bet _ amount => 0 < amount
  | .add_win _ amount => 0 < amount
  | .toggle _ => True
  | .createInvoice _ _ amount => 0 < amount
  | .checkInvoices _ _ => True
  | .rocketBet _ _ _ => True
  | .rocketTick _ elapsed => 0 ≤ elapsed
  | .rocketCashout _ _ => True
  | .matrixBet _ _ => True
  | .matrixChoice _ _ _ => True
  | .diceBet _ _ => True
  | .diceChoice _ _ _ _ => True

/-- Apply one operation to the shared state. -/
def applyOp (s : GlobalState) : Op → GlobalState
  | .deposit uid amount bt now =>
    match (s.users uid).deposit amount bt now with
    | .ok u' => s.saveUser uid u'
    | .error _ => s
  | .withdraw uid amount bt => s.saveUser uid ((s.users uid).withdraw amount bt).2
  | .add_bet uid amount => s.saveUser uid ((s.users uid).add_bet amount)
  | .add_win uid amount => s.saveUser uid ((s.users uid).add_win amount)
  | .toggle uid => s.saveUser uid (s.users uid).toggle_balance_type
  | .createInvoice id uid amount =>
    s.setInvoice id { user_id := uid, amount := amount, paid := false }
  | .checkInvoices items now => check_invoices s items now
  | .rocketBet uid bet rand => rocket_bet s uid bet rand
  | .rocketTick uid elapsed => update_multiplier s uid elapsed
  | .rocketCashout uid now => (rocket_cashout s uid now).1
  | .matrixBet uid bet => matrix_bet s uid bet
  | .matrixChoice uid a now => matrix_choice s uid a now
  | .diceBet uid bet => dice_bet s uid bet
  | .diceChoice uid c roll now => (dice_choice s uid c roll now).1

/-- Apply a sequence of operations left to right. -/
def applyOps (s : GlobalState) (ops : List Op) : GlobalState :=
  ops.foldl applyOp s

/-- The state invariant: all persisted balances are non-negative, every
registered session carries a non-negative stake (rocket sessions additionally
a non-negative multiplier and a crash point of at least `1`), and every
pending invoice carries a non-negative amount. -/
def GoodState (s : GlobalState) : Prop :=
  (∀ uid, 0 ≤ (s.users uid).balance ∧ 0 ≤ (s.users uid).virtual_balance) ∧
  (∀ uid g, s.active_rocket_games uid = some g →
    0 ≤ g.bet ∧ 0 ≤ g.multiplier ∧ 1 ≤ g.crash_target) ∧
  (∀ uid g, s.active_matrix_games uid = some g → 0 ≤ g.bet) ∧
  (∀ uid g, s.active_dice_games uid = some g → 0 ≤ g.bet) ∧
  (∀ id inv, s.active_invoices id = some inv → 0 ≤ inv.amount)

/-- The fresh record created on first reference to a user
(main.py lines 288-296). -/
def freshUser : UserState :=
  { balance := 0, virtual_balance := 0, use_virtual := false,
    daily_virtual_deposited := 0, last_virtual_deposit_time := none,
    total_bets := 0, total_wins := 0, games_played := 0 }

/-- The empty system state: fresh users, no sessions, no invoices. -/
def initialState : GlobalState :=
  { users := fun _ => freshUser,
    active_rocket_games := fun _ => none,
    active_matrix_games := fun _ => none,
    active_dice_games := fun _ => none,
    active_invoices := fun _ => none }

/-- A user funded with a real balance of `100`. -/
def funded100 : UserState := { freshUser with balance := 100 }

/-- A live rocket session (stake `5` on the real balance, crash point `2`). -/
def rocketSession0 : RocketGame :=
  { bet := 5, multiplier := 1, crashed := false, crash_target := 2,
    balance_type := .balance }

/-- State in which user `1` is funded and owns a live rocket session. -/
def stateWithRocket : GlobalState :=
  { initialState with
    users := fun _ => funded100,
    active_rocket_games := fun i => if i = 1 then some rocketSession0 else none }

/-- A user holding `150` of virtual funds, fresh issuance window started at
time `0`. -/
def virtualRich : UserState :=
  { freshUser with
    virtual_balance := 150, use_virtual := true,
    last_virtual_deposit_time := some 0 }

/-- A user whose daily virtual-issuance counter stands at `95` (window started
at time `0`) with some funds on both balances. -/
def nearCapUser : UserState :=
  { freshUser with
    balance := 3, virtual_balance := 20,
    daily_virtual_deposited := 95, last_virtual_deposit_time := some 0 }

/-- State in which every user record is `nearCapUser`. -/
def stateNearCap : GlobalState :=
  { initialState with users := fun _ => nearCapUser }

/-- A user with a real balance of `40` and some prior statistics. -/
def statsUser : UserState :=
  { freshUser with balance := 40, total_bets := 7, total_wins := 2, games_played := 4 }

/-- A matrix session on the last table level (stake `1`, real funds). -/
def matrixLastLevel : MatrixGame :=
  { bet := 1, current_level := 9, balance_type := .balance }

/-- State in which user `7` is funded and owns a matrix session on the last
level. -/
def stateMatrixLast : GlobalState :=
  { initialState with
    users := fun _ => funded100,
    active_matrix_games := fun i => if i = 7 then some matrixLastLevel else none }

/-- A matrix session at level 0 (stake `1`, real funds). -/
def matrixLevel0 : MatrixGame :=
  { bet := 1, current_level := 0, balance_type := .balance }

/-- State in which user `4` owns a level-0 matrix session. -/
def stateMatrixZero : GlobalState :=
  { initialState with
    users := fun _ => funded100,
    active_matrix_games := fun i => if i = 4 then some matrixLevel0 else none }

/-- A user playing on virtual funds whose issuance counter stands at `95`
within the current window (started at time `0`). -/
def virtualNearCap : UserState :=
  { freshUser with
    virtual_balance := 30, use_virtual := true,
    daily_virtual_deposited := 95, last_virtual_deposit_time := some 0 }

/-- State for the capped-winnings scenario: user `2` plays on virtual funds
near the daily cap and owns a live session of each kind, each staked `10` on
the virtual balance. -/
def stateVirtualGames : GlobalState :=
  { users := fun _ => virtualNearCap,
    active_rocket_games := fun i => if i = 2 then some
      { bet := 10, multiplier := 3/2, crashed := false, crash_target := 2,
        balance_type := .virtual_balance } else none,
    active_matrix_games := fun i => if i = 2 then some
      { bet := 10, current_level := 3, balance_type := .virtual_balance } else none,
    active_dice_games := fun i => if i = 2 then some
      { bet := 10, balance_type := .virtual_balance } else none,
    active_invoices := fun _ => none }

/-- State holding one unpaid pending invoice (id `11`, owner `5`,
amount `25`). -/
def stateWithInvoice : GlobalState :=
  { initialState with
    active_invoices := fun i => if i = 11 then some
      { user_id := 5, amount := 25, paid := false } else none }

section ProjectionLemmas

variable (s : GlobalState) (uid i : ℤ) (id j : ℕ) (u : UserState)

@[simp] theorem saveUser_users : (s.saveUser uid u).users i = if i = uid then u else s.users i := rfl

@[simp] theorem saveUser_rocket : (s.saveUser uid u).active_rocket_games = s.active_rocket_games := rfl

@[simp] theorem saveUser_matrix : (s.saveUser uid u).active_matrix_games = s.active_matrix_games := rfl

@[simp] theorem saveUser_dice : (s.saveUser uid u).active_dice_games = s.active_dice_games := rfl

@[simp] theorem saveUser_invoices : (s.saveUser uid u).active_invoices = s.active_invoices := rfl

@[simp] theorem setRocket_rocket (og : Option RocketGame) :
    (s.setRocket uid og).active_rocket_games i = if i = uid then og else s.active_rocket_games i := rfl

@[simp] theorem setRocket_users (og : Option RocketGame) : (s.setRocket uid og).users = s.users := rfl

@[simp] theorem setRocket_matrix (og : Option RocketGame) :
    (s.setRocket uid og).active_matrix_games = s.active_matrix_games := rfl

@[simp] theorem setRocket_dice (og : Option RocketGame) :
    (s.setRocket uid og).active_dice_games = s.active_dice_games := rfl

@[simp] theorem setRocket_invoices (og : Option RocketGame) :
    (s.setRocket uid og).active_invoices = s.active_invoices := rfl

@[simp] theorem setMatrix_matrix (og : Option MatrixGame) :
    (s.setMatrix uid og).active_matrix_games i = if i = uid then og else s.active_matrix_games i := rfl

@[simp] theorem setMatrix_users (og : Option MatrixGame) : (s.setMatrix uid og).users = s.users := rfl

@[simp] theorem setMatrix_rocket (og : Option MatrixGame) :
    (s.setMatrix uid og).active_rocket_games = s.active_rocket_games := rfl

@[simp] theorem setMatrix_dice (og : Option MatrixGame) :
    (s.setMatrix uid og).active_dice_games = s.active_dice_games := rfl

@[simp] theorem setMatrix_invoices (og : Option MatrixGame) :
    (s.setMatrix uid og).active_invoices = s.active_invoices := rfl

@[simp] theorem setDice_dice (og : Option DiceGame) :
    (s.setDice uid og).active_dice_games i = if i = uid then og else s.active_dice_games i := rfl

@[simp] theorem setDice_users (og : Option DiceGame) : (s.setDice uid og).users = s.users := rfl

@[simp] theorem setDice_rocket (og : Option DiceGame) :
    (s.setDice uid og).active_rocket_games = s.active_rocket_games := rfl

@[simp] theorem setDice_matrix (og : Option DiceGame) :
    (s.setDice uid og).active_matrix_games = s.active_matrix_games := rfl

@[simp] theorem setDice_invoices (og : Option DiceGame) :
    (s.setDice uid og).active_invoices = s.active_invoices := rfl

@[simp] theorem setInvoice_invoices (inv : Invoice) :
    (s.setInvoice id inv).active_invoices j = if j = id then some inv else s.active_invoices j := rfl

@[simp] theorem setInvoice_users (inv : Invoice) : (s.setInvoice id inv).users = s.users := rfl

@[simp] theorem setInvoice_rocket (inv : Invoice) :
    (s.setInvoice id inv).active_rocket_games = s.active_rocket_games := rfl

@[simp] theorem setInvoice_matrix (inv : Invoice) :
    (s.setInvoice id inv).active_matrix_games = s.active_matrix_games := rfl

@[simp] theorem setInvoice_dice (inv : Invoice) :
    (s.setInvoice id inv).active_dice_games = s.active_dice_games := rfl

/-- Writing a user's rocket-session entry twice keeps only the second write. -/
theorem setRocket_setRocket (s : GlobalState) (uid : ℤ) (a b : Option RocketGame) :
    (s.setRocket uid a).setRocket uid b = s.setRocket uid b := by
  unfold GlobalState.setRocket
  congr 1
  funext i
  by_cases hi : i = uid <;> simp [hi]

end ProjectionLemmas

section UserLemmas

variable (u u' : UserState) (a now : ℚ) (bt : BalanceType)

/-- A real deposit always succeeds and only adds to the real balance. -/
theorem deposit_real (u : UserState) (a now : ℚ) :
    u.deposit a .balance now = .ok { u with balance := u.balance + a } := rfl

/-- Field-level description of a successful deposit. -/
theorem deposit_ok_fields (u u' : UserState) (a now : ℚ) (bt : BalanceType)
    (h : u.deposit a bt now = .ok u') :
    u'.getBalance bt = u.getBalance bt + a ∧
    u'.total_wins = u.total_wins ∧
    u'.total_bets = u.total_bets ∧
    u'.use_virtual = u.use_virtual ∧
    u'.games_played = u.games_played ∧
    (bt = .balance → u'.virtual_balance = u.virtual_balance ∧
      u'.daily_virtual_deposited = u.daily_virtual_deposited ∧
      u'.last_virtual_deposit_time = u.last_virtual_deposit_time) ∧
    (bt = .virtual_balance → u'.balance = u.balance) := by
  cases bt with
  | balance =>
    simp only [UserState.deposit, Except.ok.injEq] at h
    subst h
    simp [UserState.getBalance]
  | virtual_balance =>
    simp only [UserState.deposit] at h
    split at h
    · exact absurd h (by simp)
    · simp only [Except.ok.injEq] at h
      subst h
      simp [UserState.getBalance]

/-- A successful deposit of a non-negative amount keeps balances non-negative. -/
theorem deposit_ok_nonneg (u u' : UserState) (a now : ℚ) (bt : BalanceType)
    (ha : 0 ≤ a) (hb : 0 ≤ u.balance) (hv : 0 ≤ u.virtual_balance)
    (h : u.deposit a bt now = .ok u') :
    0 ≤ u'.balance ∧ 0 ≤ u'.virtual_balance := by
  obtain ⟨hbal, -, -, -, -, hreal, hvirt⟩ := deposit_ok_fields u u' a now bt h
  cases bt with
  | balance =>
    obtain ⟨h1, -, -⟩ := hreal rfl
    simp only [UserState.getBalance] at hbal
    constructor <;> [rw [hbal]; rw [h1]] <;> linarith
  | virtual_balance =>
    have h1 := hvirt rfl
    simp only [UserState.getBalance] at hbal
    constructor <;> [rw [h1]; rw [hbal]] <;> linarith

/-- A withdraw keeps both balances non-negative. -/
theorem withdraw_nonneg (u : UserState) (a : ℚ) (bt : BalanceType)
    (hb : 0 ≤ u.balance) (hv : 0 ≤ u.virtual_balance) :
    0 ≤ (u.withdraw a bt).2.balance ∧ 0 ≤ (u.withdraw a bt).2.virtual_balance := by
  unfold UserState.withdraw
  split
  · rename_i hle
    cases bt with
    | balance =>
      simp only [UserState.getBalance] at hle
      constructor
      · simpa using by linarith
      · simpa using hv
    | virtual_balance =>
      simp only [UserState.getBalance] at hle
      constructor
      · simpa using hb
      · simpa using by linarith
  · exact ⟨hb, hv⟩

/-- Selecting the real balance. -/
theorem getBalance_balance (u : UserState) : u.getBalance .balance = u.balance := rfl

/-- Selecting the virtual balance. -/
theorem getBalance_virtual (u : UserState) :
    u.getBalance .virtual_balance = u.virtual_balance := rfl

/-- Closed form of a funded real withdraw. -/
theorem withdraw_balance_eq (u : UserState) (a : ℚ) (h : a ≤ u.balance) :
    u.withdraw a .balance = (true, { u with balance := u.balance - a }) := by
  unfold UserState.withdraw
  rw [getBalance_balance, if_pos h]

/-- Closed form of a funded virtual withdraw. -/
theorem withdraw_virtual_eq (u : UserState) (a : ℚ) (h : a ≤ u.virtual_balance) :
    u.withdraw a .virtual_balance =
      (true, { u with virtual_balance := u.virtual_balance - a }) := by
  unfold UserState.withdraw
  rw [getBalance_virtual, if_pos h]

/-- A virtual deposit pushing past the daily cap raises `limitExceeded`. -/
theorem deposit_virtual_cap_error (u : UserState) (a now : ℚ)
    (h : DAILY_VIRTUAL_LIMIT < dailyAfterReset u now + a) :
    u.deposit a .virtual_balance now =
      .error (.limitExceeded (VIRTUAL_DEPOSIT_RESET -
        (match u.last_virtual_deposit_time with
         | some last => now - last
         | none => 0))) := by
  unfold UserState.deposit
  rw [if_pos h]

/-- A declined withdraw is a full no-op returning `false`. -/
theorem withdraw_insufficient (u : UserState) (a : ℚ) (bt : BalanceType)
    (h : u.getBalance bt < a) : u.withdraw a bt = (false, u) := by
  unfold UserState.withdraw
  rw [if_neg (not_le.mpr h)]

/-- A funded withdraw succeeds, debits exactly the amount from the selected
balance and changes nothing else. -/
theorem withdraw_sufficient (u : UserState) (a : ℚ) (bt : BalanceType)
    (h : a ≤ u.getBalance bt) :
    (u.withdraw a bt).1 = true ∧
    (u.withdraw a bt).2.getBalance bt = u.getBalance bt - a ∧
    (bt = .balance → (u.withdraw a bt).2.virtual_balance = u.virtual_balance) ∧
    (bt = .virtual_balance → (u.withdraw a bt).2.balance = u.balance) ∧
    (u.withdraw a bt).2.use_virtual = u.use_virtual ∧
    (u.withdraw a bt).2.daily_virtual_deposited = u.daily_virtual_deposited ∧
    (u.withdraw a bt).2.last_virtual_deposit_time = u.last_virtual_deposit_time ∧
    (u.withdraw a bt).2.total_bets = u.total_bets ∧
    (u.withdraw a bt).2.total_wins = u.total_wins ∧
    (u.withdraw a bt).2.games_played = u.games_played := by
  unfold UserState.withdraw
  rw [if_pos h]
  cases bt <;> simp [UserState.getBalance]

end UserLemmas

section TableLemmas

/-- The ladder multiplier table written out. -/
theorem matrix_multipliers_eq :
    MATRIX_MULTIPLIERS = [1, 6/5, (6/5)^2, (6/5)^3, (6/5)^4, (6/5)^5, (6/5)^6,
      (6/5)^7, (6/5)^8, (6/5)^9] := by
  simp [MATRIX_MULTIPLIERS, List.range_succ]

/-- Every entry of the ladder multiplier table is non-negative. -/
theorem matrix_multipliers_mem_nonneg : ∀ x ∈ MATRIX_MULTIPLIERS, 0 ≤ x := by
  rw [matrix_multipliers_eq]
  intro x hx
  fin_cases hx <;> positivity

/-- The last entry of the ladder multiplier table is `1.2 ^ 9`. -/
theorem matrix_multipliers_getLastD : MATRIX_MULTIPLIERS.getLastD 1 = (6/5) ^ 9 := by
  rw [matrix_multipliers_eq]
  rfl

/-- The ladder multiplier table has ten entries (levels 0 through 9). -/
theorem matrix_multipliers_length : MATRIX_MULTIPLIERS.length = 10 := by
  rw [matrix_multipliers_eq]
  rfl

/-- The last entry of the ladder multiplier table is its maximum. -/
theorem matrix_multipliers_last_max :
    ∀ x ∈ MATRIX_MULTIPLIERS, x ≤ MATRIX_MULTIPLIERS.getLastD 1 := by
  rw [matrix_multipliers_getLastD, matrix_multipliers_eq]
  intro x hx
  fin_cases hx <;> norm_num

/-- Both dice multipliers are non-negative. -/
theorem dice_multipliers_nonneg (n : ℕ) : 0 ≤ DICE_MULTIPLIERS n := by
  unfold DICE_MULTIPLIERS
  split <;> norm_num

/-- The clamp on line 853 bounds every generated crash point below by `1.01`. -/
theorem crash_point_ge (rand : ℚ) : 101/100 ≤ crash_point rand := le_max_right _ _

/-- For draws inside the first band (`r ≤ 0.10`) the loop computes
`1.0 + (1.1 - 1.0) * (r / 0.10) = 1 + r`, so the crash point is
`max (1 + r) 1.01`. -/
theorem crash_point_first_band (r : ℚ) (h : r ≤ 1/10) :
    crash_point r = max (1 + r) (101/100) := by
  have hloop : crashLoop r 0 (1, 0) ROCKET_CRASH_PROBABILITIES = 1 + r := by
    unfold ROCKET_CRASH_PROBABILITIES crashLoop
    rw [if_pos h, if_pos rfl]
    norm_num
    ring
  unfold crash_point
  rw [hloop]

end TableLemmas

section Preservation

/-- Persisting a record with non-negative balances preserves the invariant. -/
theorem goodState_saveUser (s : GlobalState) (uid : ℤ) (u : UserState)
    (hs : GoodState s) (hb : 0 ≤ u.balance) (hv : 0 ≤ u.virtual_balance) :
    GoodState (s.saveUser uid u) := by
  obtain ⟨h1, h2, h3, h4, h5⟩ := hs
  refine ⟨fun i => ?_, h2, h3, h4, h5⟩
  rcases eq_or_ne i uid with hi | hi
  · subst hi
    simpa using ⟨hb, hv⟩
  · simpa [hi] using h1 i

/-- Writing a well-formed (or no) rocket session preserves the invariant. -/
theorem goodState_setRocket (s : GlobalState) (uid : ℤ) (og : Option RocketGame)
    (hs : GoodState s)
    (hg : ∀ g, og = some g → 0 ≤ g.bet ∧ 0 ≤ g.multiplier ∧ 1 ≤ g.crash_target) :
    GoodState (s.setRocket uid og) := by
  obtain ⟨h1, h2, h3, h4, h5⟩ := hs
  refine ⟨h1, fun i g hig => ?_, h3, h4, h5⟩
  rw [setRocket_rocket] at hig
  split at hig
  · exact hg g hig
  · exact h2 i g hig

/-- Writing a well-formed (or no) matrix session preserves the invariant. -/
theorem goodState_setMatrix (s : GlobalState) (uid : ℤ) (og : Option MatrixGame)
    (hs : GoodState s) (hg : ∀ g, og = some g → 0 ≤ g.bet) :
    GoodState (s.setMatrix uid og) := by
  obtain ⟨h1, h2, h3, h4, h5⟩ := hs
  refine ⟨h1, h2, fun i g hig => ?_, h4, h5⟩
  rw [setMatrix_matrix] at hig
  split at hig
  · exact hg g hig
  · exact h3 i g hig

/-- Writing a well-formed (or no) dice session preserves the invariant. -/
theorem goodState_setDice (s : GlobalState) (uid : ℤ) (og : Option DiceGame)
    (hs : GoodState s) (hg : ∀ g, og = some g → 0 ≤ g.bet) :
    GoodState (s.setDice uid og) := by
  obtain ⟨h1, h2, h3, h4, h5⟩ := hs
  refine ⟨h1, h2, h3, fun i g hig => ?_, h5⟩
  rw [setDice_dice] at hig
  split at hig
  · exact hg g hig
  · exact h4 i g hig

/-- Writing an invoice with a non-negative amount preserves the invariant. -/
theorem goodState_setInvoice (s : GlobalState) (id : ℕ) (inv : Invoice)
    (hs : GoodState s) (ha : 0 ≤ inv.amount) :
    GoodState (s.setInvoice id inv) := by
  obtain ⟨h1, h2, h3, h4, h5⟩ := hs
  refine ⟨h1, h2, h3, h4, fun j inv' hj => ?_⟩
  rw [setInvoice_invoices] at hj
  split at hj
  · cases hj
    exact ha
  · exact h5 j inv' hj

/-- `rocket_bet` preserves the invariant. -/
theorem rocket_bet_good (s : GlobalState) (uid : ℤ) (bet rand : ℚ)
    (hs : GoodState s) : GoodState (rocket_bet s uid bet rand) := by
  have hs1 : GoodState (s.setRocket uid none) :=
    goodState_setRocket s uid none hs (by intro g hg; cases hg)
  unfold rocket_bet
  split
  · exact hs1
  split
  · exact hs1
  dsimp only
  split
  · exact hs1
  rename_i hmin hmax hbal
  apply goodState_setRocket
  · apply goodState_saveUser _ _ _ hs1
    · exact (withdraw_nonneg _ _ _ (hs1.1 uid).1 (hs1.1 uid).2).1
    · exact (withdraw_nonneg _ _ _ (hs1.1 uid).1 (hs1.1 uid).2).2
  · intro g hg
    cases hg
    refine ⟨?_, by norm_num, ?_⟩
    · have : MIN_BET ≤ bet := not_lt.mp hmin
      have : (0:ℚ) < MIN_BET := by norm_num [MIN_BET]
      linarith
    · have := crash_point_ge rand
      linarith

/-- `matrix_bet` preserves the invariant. -/
theorem matrix_bet_good (s : GlobalState) (uid : ℤ) (bet : ℚ)
    (hs : GoodState s) : GoodState (matrix_bet s uid bet) := by
  unfold matrix_bet
  split
  · exact hs
  split
  · exact hs
  dsimp only
  split
  · exact hs
  rename_i hmin hmax hbal
  apply goodState_setMatrix
  · apply goodState_saveUser _ _ _ hs
    · exact (withdraw_nonneg _ _ _ (hs.1 uid).1 (hs.1 uid).2).1
    · exact (withdraw_nonneg _ _ _ (hs.1 uid).1 (hs.1 uid).2).2
  · intro g hg
    cases hg
    have : MIN_BET ≤ bet := not_lt.mp hmin
    have : (0:ℚ) < MIN_BET := by norm_num [MIN_BET]
    linarith

/-- `dice_bet` preserves the invariant. -/
theorem dice_bet_good (s : GlobalState) (uid : ℤ) (bet : ℚ)
    (hs : GoodState s) : GoodState (dice_bet s uid bet) := by
  unfold dice_bet
  split
  · exact hs
  split
  · exact hs
  dsimp only
  split
  · exact hs
  rename_i hmin hmax hbal
  apply goodState_setDice
  · apply goodState_saveUser _ _ _ hs
    · exact (withdraw_nonneg _ _ _ (hs.1 uid).1 (hs.1 uid).2).1
    · exact (withdraw_nonneg _ _ _ (hs.1 uid).1 (hs.1 uid).2).2
  · intro g hg
    cases hg
    have : MIN_BET ≤ bet := not_lt.mp hmin
    have : (0:ℚ) < MIN_BET := by norm_num [MIN_BET]
    linarith

/-- A rocket tick preserves the invariant when elapsed time is non-negative. -/
theorem update_multiplier_good (s : GlobalState) (uid : ℤ) (elapsed : ℚ)
    (he : 0 ≤ elapsed) (hs : GoodState s) :
    GoodState (update_multiplier s uid elapsed) := by
  unfold update_multiplier
  cases hg : s.active_rocket_games uid with
  | none => exact hs
  | some g =>
    obtain ⟨hb, hm, hc⟩ := hs.2.1 uid g hg
    have hmul : 0 ≤ 1 + (g.crash_target - 1) * (elapsed / (g.crash_target * 3)) := by
      have h1 : 0 ≤ g.crash_target - 1 := by linarith
      have h2 : 0 ≤ elapsed / (g.crash_target * 3) := div_nonneg he (by linarith)
      nlinarith
    have hkeep : GoodState (s.setRocket uid (some
        { g with multiplier := 1 + (g.crash_target - 1) * (elapsed / (g.crash_target * 3)) })) := by
      apply goodState_setRocket _ _ _ hs
      intro g' hg'
      cases hg'
      exact ⟨hb, hmul, hc⟩
    dsimp only
    split
    · split
      · exact hkeep
      · exact goodState_setRocket _ _ _ hs (by intro g' hg'; cases hg')
    · exact hkeep

/-- `rocket_cashout` preserves the invariant. -/
theorem rocket_cashout_good (s : GlobalState) (uid : ℤ) (now : ℚ)
    (hs : GoodState s) : GoodState (rocket_cashout s uid now).1 := by
  unfold rocket_cashout
  cases hg : s.active_rocket_games uid with
  | none => exact hs
  | some g =>
    obtain ⟨hb, hm, hc⟩ := hs.2.1 uid g hg
    dsimp only
    split
    · exact hs
    · cases hd : (s.users uid).deposit (g.bet * g.multiplier) g.balance_type now with
      | error e =>
        dsimp only
        apply goodState_setRocket _ _ _ hs
        intro g' hg'
        cases hg'
        exact ⟨hb, hm, hc⟩
      | ok u' =>
        dsimp only
        have hnn := deposit_ok_nonneg _ _ _ _ _ (mul_nonneg hb hm)
          (hs.1 uid).1 (hs.1 uid).2 hd
        apply goodState_setRocket _ _ _ _ (by intro g' hg'; cases hg')
        exact goodState_saveUser _ _ _ hs hnn.1 hnn.2

/-- `show_matrix_level` preserves the invariant. -/
theorem show_matrix_level_good (s : GlobalState) (uid : ℤ) (now : ℚ)
    (hs : GoodState s) : GoodState (show_matrix_level s uid now) := by
  unfold show_matrix_level
  cases hg : s.active_matrix_games uid with
  | none => exact hs
  | some g =>
    have hb := hs.2.2.1 uid g hg
    dsimp only
    split
    · have hw : 0 ≤ g.bet * MATRIX_MULTIPLIERS.getLastD 1 := by
        apply mul_nonneg hb
        rw [matrix_multipliers_getLastD]
        positivity
      cases hd : (s.users uid).deposit (g.bet * MATRIX_MULTIPLIERS.getLastD 1)
          g.balance_type now with
      | error e => exact hs
      | ok u' =>
        have hnn := deposit_ok_nonneg _ _ _ _ _ hw (hs.1 uid).1 (hs.1 uid).2 hd
        apply goodState_setMatrix _ _ _ _ (by intro g' hg'; cases hg')
        exact goodState_saveUser _ _ _ hs hnn.1 hnn.2
    · exact hs

/-- `matrix_choice` preserves the invariant. -/
theorem matrix_choice_good (s : GlobalState) (uid : ℤ) (a : MatrixAction) (now : ℚ)
    (hs : GoodState s) : GoodState (matrix_choice s uid a now) := by
  unfold matrix_choice
  cases hg : s.active_matrix_games uid with
  | none => exact hs
  | some g =>
    have hb := hs.2.2.1 uid g hg
    cases a with
    | disabled => exact hs
    | correct =>
      apply show_matrix_level_good
      apply goodState_setMatrix _ _ _ hs
      intro g' hg'
      cases hg'
      exact hb
    | bomb => exact goodState_setMatrix _ _ _ hs (by intro g' hg'; cases hg')
    | cashout =>
      dsimp only
      split
      · rename_i h
        have hw : 0 ≤ g.bet * MATRIX_MULTIPLIERS.get ⟨g.current_level, h⟩ := by
          apply mul_nonneg hb
          exact matrix_multipliers_mem_nonneg _ (MATRIX_MULTIPLIERS.get_mem _ _)
        cases hd : (s.users uid).deposit (g.bet * MATRIX_MULTIPLIERS.get ⟨g.current_level, h⟩)
            g.balance_type now with
        | error e => exact hs
        | ok u' =>
          have hnn := deposit_ok_nonneg _ _ _ _ _ hw (hs.1 uid).1 (hs.1 uid).2 hd
          apply goodState_setMatrix _ _ _ _ (by intro g' hg'; cases hg')
          exact goodState_saveUser _ _ _ hs hnn.1 hnn.2
      · exact hs

/-- `dice_choice` preserves the invariant. -/
theorem dice_choice_good (s : GlobalState) (uid : ℤ) (c : DiceChoice) (roll : ℕ) (now : ℚ)
    (hs : GoodState s) : GoodState (dice_choice s uid c roll now).1 := by
  unfold dice_choice
  cases hg : s.active_dice_games uid with
  | none => exact hs
  | some g =>
    have hb := hs.2.2.2.1 uid g hg
    dsimp only
    split
    · cases hd : (s.users uid).deposit (g.bet * DICE_MULTIPLIERS (diceBetType c))
          g.balance_type now with
      | error e => exact hs
      | ok u' =>
        have hnn := deposit_ok_nonneg _ _ _ _ _
          (mul_nonneg hb (dice_multipliers_nonneg _)) (hs.1 uid).1 (hs.1 uid).2 hd
        apply goodState_setDice _ _ _ _ (by intro g' hg'; cases hg')
        exact goodState_saveUser _ _ _ hs hnn.1 hnn.2
    · exact goodState_setDice _ _ _ hs (by intro g' hg'; cases hg')

/-- `check_invoices` preserves the invariant. -/
theorem check_invoices_good (items : List (ℕ × Bool)) (s : GlobalState) (now : ℚ)
    (hs : GoodState s) : GoodState (check_invoices s items now) := by
  induction items generalizing s with
  | nil => exact hs
  | cons hd tl ih =>
    show GoodState (check_invoices _ tl now)
    apply ih
    unfold check_invoice_step
    split
    · cases hinv : s.active_invoices hd.1 with
      | none => exact hs
      | some inv =>
        dsimp only
        split
        · exact hs
        · have hamt := hs.2.2.2.2 hd.1 inv hinv
          cases hd2 : (s.users inv.user_id).deposit inv.amount .balance now with
          | error e => exact hs
          | ok u' =>
            have hnn := deposit_ok_nonneg _ _ _ _ _ hamt
              (hs.1 inv.user_id).1 (hs.1 inv.user_id).2 hd2
            show GoodState ((s.saveUser inv.user_id u').setInvoice hd.1
              { user_id := inv.user_id, amount := inv.amount, paid := true })
            apply goodState_setInvoice
            · exact goodState_saveUser _ _ _ hs hnn.1 hnn.2
            · exact hamt
    · exact hs

/-- Every valid operation preserves the invariant. -/
theorem applyOp_good (s : GlobalState) (op : Op)
    (hs : GoodState s) (hv : op.valid) : GoodState (applyOp s op) := by
  cases op with
  | deposit uid amount bt now =>
    show GoodState (match (s.users uid).deposit amount bt now with
      | .ok u' => s.saveUser uid u'
      | .error _ => s)
    cases hd : (s.users uid).deposit amount bt now with
    | error e => exact hs
    | ok u' =>
      have hnn := deposit_ok_nonneg _ _ _ _ _ (le_of_lt hv)
        (hs.1 uid).1 (hs.1 uid).2 hd
      exact goodState_saveUser _ _ _ hs hnn.1 hnn.2
  | withdraw uid amount bt =>
    have hnn := withdraw_nonneg (s.users uid) amount bt (hs.1 uid).1 (hs.1 uid).2
    exact goodState_saveUser _ _ _ hs hnn.1 hnn.2
  | add_bet uid amount => exact goodState_saveUser _ _ _ hs (hs.1 uid).1 (hs.1 uid).2
  | add_win uid amount => exact goodState_saveUser _ _ _ hs (hs.1 uid).1 (hs.1 uid).2
  | toggle uid => exact goodState_saveUser _ _ _ hs (hs.1 uid).1 (hs.1 uid).2
  | createInvoice id uid amount => exact goodState_setInvoice _ _ _ hs (le_of_lt hv)
  | checkInvoices items now => exact check_invoices_good items s now hs
  | rocketBet uid bet rand => exact rocket_bet_good s uid bet rand hs
  | rocketTick uid elapsed => exact update_multiplier_good s uid elapsed hv hs
  | rocketCashout uid now => exact rocket_cashout_good s uid now hs
  | matrixBet uid bet => exact matrix_bet_good s uid bet hs
  | matrixChoice uid a now => exact matrix_choice_good s uid a now hs
  | diceBet uid bet => exact dice_bet_good s uid bet hs
  | diceChoice uid c roll now => exact dice_choice_good s uid c roll now hs

/-- A sequence of valid operations preserves the invariant. -/
theorem applyOps_good (ops : List Op) (s : GlobalState)
    (hs : GoodState s) (hv : ∀ op ∈ ops, op.valid) : GoodState (applyOps s ops) := by
  induction ops generalizing s with
  | nil => exact hs
  | cons hd tl ih =>
    show GoodState (applyOps (applyOp s hd) tl)
    exact ih _ (applyOp_good s hd hs (hv hd (by simp))) (fun op hop => hv op (by simp [hop]))

end Preservation

section Reconciliation

/-- Persisting a user record does not disturb settled invoices. -/
theorem invoiceSettled_saveUser (s : GlobalState) (uid : ℤ) (u : UserState) (j : ℕ)
    (h : invoiceSettled s j) : invoiceSettled (s.saveUser uid u) j := h

/-- Writing a paid invoice record keeps every id settled that already was,
and settles the id written. -/
theorem invoiceSettled_setInvoice (s : GlobalState) (id j : ℕ) (inv : Invoice)
    (hpaid : inv.paid = true) (h : invoiceSettled s j) :
    invoiceSettled (s.setInvoice id inv) j := by
  intro inv' hi
  rw [setInvoice_invoices] at hi
  split at hi
  · cases hi
    exact hpaid
  · exact h inv' hi

/-- Writing a paid invoice record settles its id. -/
theorem invoiceSettled_setInvoice_self (s : GlobalState) (id : ℕ) (inv : Invoice)
    (hpaid : inv.paid = true) : invoiceSettled (s.setInvoice id inv) id := by
  intro inv' hi
  rw [setInvoice_invoices, if_pos rfl] at hi
  cases hi
  exact hpaid

/-- After processing a paid item, its invoice id is settled. -/
theorem check_invoice_step_settles (now : ℚ) (s : GlobalState) (item : ℕ × Bool)
    (h : item.2 = true) : invoiceSettled (check_invoice_step now s item) item.1 := by
  unfold check_invoice_step
  rw [if_pos h]
  cases hinv : s.active_invoices item.1 with
  | none =>
    intro inv hi
    rw [hinv] at hi
    exact Option.noConfusion hi
  | some inv =>
    dsimp only
    split
    · rename_i hp
      intro inv' hi
      rw [hinv] at hi
      cases hi
      exact hp
    · apply invoiceSettled_setInvoice_self
      rfl

/-- Processing any item keeps previously settled ids settled. -/
theorem check_invoice_step_preserves_settled (now : ℚ) (s : GlobalState)
    (item : ℕ × Bool) (j : ℕ) (h : invoiceSettled s j) :
    invoiceSettled (check_invoice_step now s item) j := by
  unfold check_invoice_step
  split
  · cases hinv : s.active_invoices item.1 with
    | none => exact h
    | some inv =>
      dsimp only
      split
      · exact h
      · apply invoiceSettled_setInvoice
        · rfl
        · exact h
  · exact h

/-- Processing an item whose id is already settled changes nothing. -/
theorem check_invoice_step_noop (now : ℚ) (s : GlobalState) (item : ℕ × Bool)
    (h : invoiceSettled s item.1) : check_invoice_step now s item = s := by
  unfold check_invoice_step
  split
  · cases hinv : s.active_invoices item.1 with
    | none => rfl
    | some inv =>
      dsimp only
      rw [if_pos (h inv hinv)]
  · rfl

/-- The reconciliation poll keeps settled ids settled. -/
theorem check_invoices_preserves_settled (items : List (ℕ × Bool)) (s : GlobalState)
    (now : ℚ) (j : ℕ) (h : invoiceSettled s j) :
    invoiceSettled (check_invoices s items now) j := by
  induction items generalizing s with
  | nil => exact h
  | cons hd tl ih =>
    show invoiceSettled (check_invoices (check_invoice_step now s hd) tl now) j
    exact ih _ (check_invoice_step_preserves_settled now s hd j h)

/-- After one reconciliation poll, every id reported paid is settled. -/
theorem check_invoices_settles (items : List (ℕ × Bool)) (s : GlobalState) (now : ℚ) :
    ∀ item ∈ items, item.2 = true → invoiceSettled (check_invoices s items now) item.1 := by
  induction items generalizing s with
  | nil =>
    intro item hi
    cases hi
  | cons hd tl ih =>
    intro item hi htrue
    rcases List.mem_cons.mp hi with hh | hh
    · subst hh
      show invoiceSettled (check_invoices (check_invoice_step now s item) tl now) item.1
      exact check_invoices_preserves_settled tl _ now item.1
        (check_invoice_step_settles now s item htrue)
    · exact ih (check_invoice_step now s hd) item hh htrue

/-- A reconciliation poll whose paid items are all settled is a no-op. -/
theorem check_invoices_noop (items : List (ℕ × Bool)) (s : GlobalState) (now : ℚ)
    (h : ∀ item ∈ items, item.2 = true → invoiceSettled s item.1) :
    check_invoices s items now = s := by
  induction items generalizing s with
  | nil => rfl
  | cons hd tl ih =>
    show check_invoices (check_invoice_step now s hd) tl now = s
    have hstep : check_invoice_step now s hd = s := by
      cases htrue : hd.2 with
      | true => exact check_invoice_step_noop now s hd (h hd (by simp) htrue)
      | false =>
        unfold check_invoice_step
        rw [if_neg (by simp [htrue])]
    rw [hstep]
    exact ih s (fun item hi ht => h item (by simp [hi]) ht)

/-- Running the reconciliation poll twice on the same external response is
the same as running it once. -/
theorem check_invoices_idem (items : List (ℕ × Bool)) (s : GlobalState) (n1 n2 : ℚ) :
    check_invoices (check_invoices s items n1) items n2 = check_invoices s items n1 :=
  check_invoices_noop items _ n2
    (fun item hi ht => check_invoices_settles items s n1 item hi ht)

end Reconciliation

section DiceLemmas

/-- A winning exact-face dice choice on a real-balance session: the payout is
`bet * 6`, deposited and recorded, and the session is deleted. -/
theorem dice_choice_exact_win (s : GlobalState) (uid : ℤ) (n roll : ℕ) (g : DiceGame)
    (now : ℚ) (hg : s.active_dice_games uid = some g)
    (hbt : g.balance_type = .balance) (hwin : n = roll) :
    dice_choice s uid (.exact n) roll now =
      ((s.saveUser uid
        (({ s.users uid with
            balance := (s.users uid).balance + g.bet * 6 }).add_win (g.bet * 6))).setDice
        uid none, some (g.bet * 6)) := by
  unfold dice_choice
  rw [hg]
  dsimp only
  rw [if_pos (by simp [diceWinCondition, hwin])]
  have hmult : DICE_MULTIPLIERS (diceBetType (.exact n)) = 6 := rfl
  rw [hmult, hbt, deposit_real]

end DiceLemmas

section Claims

/-- Claim C2: for every account and after every sequence of ledger and game
operations, each operation satisfying its stated precondition (externally
supplied amounts positive, elapsed time non-negative), both the real and the
virtual balance remain non-negative; in particular a withdrawal never
produces a negative balance, because `User.withdraw` declines rather than
debiting past zero. -/
theorem C2_balances_nonneg (s : GlobalState) (ops : List Op) (uid : ℤ)
    (hs : GoodState s) (hops : ∀ op ∈ ops, op.valid) :
    0 ≤ ((applyOps s ops).users uid).balance ∧
    0 ≤ ((applyOps s ops).users uid).virtual_balance :=
  (applyOps_good ops s hs hops).1 uid

/-- Witness for C2: a concrete run from the empty state through a deposit,
two withdrawals (one declined) and a full dice round. -/
theorem C2_balances_nonneg_witness :
    0 ≤ ((applyOps initialState
        [Op.deposit 1 50 .balance 0, Op.withdraw 1 30 .balance,
         Op.diceBet 1 10, Op.diceChoice 1 (.exact 4) 4 5,
         Op.withdraw 1 1000 .balance]).users 1).balance ∧
    0 ≤ ((applyOps initialState
        [Op.deposit 1 50 .balance 0, Op.withdraw 1 30 .balance,
         Op.diceBet 1 10, Op.diceChoice 1 (.exact 4) 4 5,
         Op.withdraw 1 1000 .balance]).users 1).virtual_balance :=
  C2_balances_nonneg initialState _ 1
    ⟨fun _ => ⟨le_refl 0, le_refl 0⟩,
     fun x g h => by simp [initialState] at h,
     fun x g h => by simp [initialState] at h,
     fun x g h => by simp [initialState] at h,
     fun x g h => by simp [initialState] at h⟩
    (by intro op hop; fin_cases hop <;> norm_num [Op.valid])

/-- Claim C6: `withdraw` returns `true` and debits the selected balance by
exactly the amount when the balance suffices, and returns `false` with no
state mutation at all when it does not; the decline is the boolean result,
not an error. -/
theorem C6_withdraw_contract (u : UserState) (amount : ℚ) (bt : BalanceType)
    (hpos : 0 < amount) :
    (amount ≤ u.getBalance bt →
      (u.withdraw amount bt).1 = true ∧
      (u.withdraw amount bt).2.getBalance bt = u.getBalance bt - amount ∧
      (bt = .balance → (u.withdraw amount bt).2.virtual_balance = u.virtual_balance) ∧
      (bt = .virtual_balance → (u.withdraw amount bt).2.balance = u.balance) ∧
      (u.withdraw amount bt).2.use_virtual = u.use_virtual ∧
      (u.withdraw amount bt).2.daily_virtual_deposited = u.daily_virtual_deposited ∧
      (u.withdraw amount bt).2.last_virtual_deposit_time = u.last_virtual_deposit_time ∧
      (u.withdraw amount bt).2.total_bets = u.total_bets ∧
      (u.withdraw amount bt).2.total_wins = u.total_wins ∧
      (u.withdraw amount bt).2.games_played = u.games_played) ∧
    (u.getBalance bt < amount → u.withdraw amount bt = (false, u)) :=
  ⟨withdraw_sufficient u amount bt, withdraw_insufficient u amount bt⟩

/-- Witness for C6: a funded real withdraw succeeds and debits exactly; an
unfunded virtual withdraw is declined without mutation. -/
theorem C6_withdraw_contract_witness :
    ((statsUser.withdraw 5 .balance).1 = true ∧
     (statsUser.withdraw 5 .balance).2.getBalance .balance =
       statsUser.getBalance .balance - 5) ∧
    statsUser.withdraw 7 .virtual_balance = (false, statsUser) :=
  ⟨⟨((C6_withdraw_contract statsUser 5 .balance (by norm_num)).1
      (by norm_num [statsUser, freshUser, UserState.getBalance])).1,
    ((C6_withdraw_contract statsUser 5 .balance (by norm_num)).1
      (by norm_num [statsUser, freshUser, UserState.getBalance])).2.1⟩,
   (C6_withdraw_contract statsUser 7 .virtual_balance (by norm_num)).2
     (by norm_num [statsUser, freshUser, UserState.getBalance])⟩

/-- Claim C5: with the daily virtual-issuance counter at `95` inside the
current 24-hour window, a virtual deposit of `10` fails with `limitExceeded`
carrying the remaining wait time, and nothing is persisted (the system state
is unchanged); once 24 hours have elapsed since the window start, the same
deposit succeeds, leaves the daily counter at `10`, credits the virtual
balance by `10` and does not touch the real balance. -/
theorem C5_virtual_cap (u : UserState) (t0 now now2 : ℚ)
    (s : GlobalState) (uid : ℤ) (hsu : s.users uid = u)
    (hd : u.daily_virtual_deposited = 95)
    (hl : u.last_virtual_deposit_time = some t0)
    (hwin : now - t0 < VIRTUAL_DEPOSIT_RESET)
    (hwin2 : VIRTUAL_DEPOSIT_RESET ≤ now2 - t0) :
    u.deposit 10 .virtual_balance now =
      .error (.limitExceeded (VIRTUAL_DEPOSIT_RESET - (now - t0))) ∧
    applyOp s (.deposit uid 10 .virtual_balance now) = s ∧
    Except.map UserState.daily_virtual_deposited (u.deposit 10 .virtual_balance now2) =
      .ok 10 ∧
    Except.map UserState.virtual_balance (u.deposit 10 .virtual_balance now2) =
      .ok (u.virtual_balance + 10) ∧
    Except.map UserState.balance (u.deposit 10 .virtual_balance now2) = .ok u.balance := by
  have hdar : dailyAfterReset u now = 95 := by
    simp only [dailyAfterReset, hl]
    rw [if_neg (not_le.mpr hwin)]
    exact hd
  have h1 : u.deposit 10 .virtual_balance now =
      .error (.limitExceeded (VIRTUAL_DEPOSIT_RESET - (now - t0))) := by
    rw [deposit_virtual_cap_error u 10 now (by rw [hdar]; norm_num [DAILY_VIRTUAL_LIMIT])]
    simp only [hl]
  have hdar2 : dailyAfterReset u now2 = 0 := by
    simp only [dailyAfterReset, hl]
    rw [if_pos hwin2]
  have h2 : u.deposit 10 .virtual_balance now2 = .ok { u with
      virtual_balance := u.virtual_balance + 10,
      daily_virtual_deposited := 10,
      last_virtual_deposit_time := some (lastAfterReset u now2) } := by
    unfold UserState.deposit
    rw [if_neg (by rw [hdar2]; norm_num [DAILY_VIRTUAL_LIMIT])]
    rw [hdar2]
    norm_num
  refine ⟨h1, ?_, ?_, ?_, ?_⟩
  · show (match (s.users uid).deposit 10 .virtual_balance now with
      | .ok u' => s.saveUser uid u'
      | .error _ => s) = s
    rw [hsu, h1]
  · rw [h2]
    rfl
  · rw [h2]
    rfl
  · rw [h2]
    rfl

/-- Witness for C5 at the concrete near-cap account: the deposit at hour one
fails with 23 hours of wait remaining, the system state is untouched, and the
same deposit one day later succeeds with the counter reset to `10`. -/
theorem C5_virtual_cap_witness :
    nearCapUser.deposit 10 .virtual_balance 3600 =
      .error (.limitExceeded (VIRTUAL_DEPOSIT_RESET - (3600 - 0))) ∧
    applyOp stateNearCap (.deposit 9 10 .virtual_balance 3600) = stateNearCap ∧
    Except.map UserState.daily_virtual_deposited
      (nearCapUser.deposit 10 .virtual_balance 86400) = .ok 10 := by
  have h := C5_virtual_cap nearCapUser 0 3600 86400 stateNearCap 9 rfl rfl rfl
    (by norm_num [VIRTUAL_DEPOSIT_RESET])
    (by norm_num [VIRTUAL_DEPOSIT_RESET])
  exact ⟨h.1, h.2.1, h.2.2.1⟩

/-- Counterexample to claim C4 as stated: on the virtual balance the
round-trip deposit can fail.  A user holding `150` virtual inside a fresh
issuance window withdraws `150` successfully, but re-depositing the same
`150` exceeds the daily issuance cap of `100` and raises `limitExceeded`
instead of succeeding, so the prior balance is not restored. -/
theorem C4_counterexample :
    (virtualRich.withdraw 150 .virtual_balance).1 = true ∧
    (virtualRich.withdraw 150 .virtual_balance).2.deposit 150 .virtual_balance 3600 =
      .error (.limitExceeded 82800) := by
  have hw : virtualRich.withdraw 150 .virtual_balance =
      (true, { virtualRich with virtual_balance := virtualRich.virtual_balance - 150 }) :=
    withdraw_virtual_eq virtualRich 150 (by norm_num [virtualRich, freshUser])
  constructor
  · rw [hw]
  · rw [hw]
    rw [deposit_virtual_cap_error _ _ _ (by norm_num [dailyAfterReset, virtualRich,
      freshUser, VIRTUAL_DEPOSIT_RESET, DAILY_VIRTUAL_LIMIT])]
    norm_num [virtualRich, freshUser, VIRTUAL_DEPOSIT_RESET]

/-- Claim C4 (amended): a successful withdraw followed immediately by a
deposit of the same amount in the same currency restores the prior balance of
that currency exactly, and the deposit succeeds — unconditionally for the
real balance, and for the virtual balance provided the re-deposited amount
still fits under the daily issuance cap (counter after any window reset plus
amount at most `100`); otherwise the virtual re-deposit fails with
`limitExceeded` (see the counterexample). -/
theorem C4_roundtrip_amended (u : UserState) (amount now : ℚ) (hpos : 0 < amount) :
    (amount ≤ u.balance →
      (u.withdraw amount .balance).1 = true ∧
      Except.map UserState.balance
        ((u.withdraw amount .balance).2.deposit amount .balance now) = .ok u.balance ∧
      Except.map UserState.virtual_balance
        ((u.withdraw amount .balance).2.deposit amount .balance now) =
        .ok u.virtual_balance) ∧
    (amount ≤ u.virtual_balance →
      dailyAfterReset u now + amount ≤ DAILY_VIRTUAL_LIMIT →
      (u.withdraw amount .virtual_balance).1 = true ∧
      Except.map UserState.virtual_balance
        ((u.withdraw amount .virtual_balance).2.deposit amount .virtual_balance now) =
        .ok u.virtual_balance ∧
      Except.map UserState.balance
        ((u.withdraw amount .virtual_balance).2.deposit amount .virtual_balance now) =
        .ok u.balance) := by
  constructor
  · intro h
    rw [withdraw_balance_eq u amount h]
    refine ⟨rfl, ?_, ?_⟩
    · rw [deposit_real]
      show Except.ok (u.balance - amount + amount) = Except.ok u.balance
      rw [sub_add_cancel]
    · rw [deposit_real]
      rfl
  · intro h hcap
    rw [withdraw_virtual_eq u amount h]
    have hdar : dailyAfterReset { u with virtual_balance := u.virtual_balance - amount } now =
        dailyAfterReset u now := rfl
    refine ⟨rfl, ?_, ?_⟩
    · show Except.map UserState.virtual_balance
        (UserState.deposit _ amount .virtual_balance now) = .ok u.virtual_balance
      unfold UserState.deposit
      rw [if_neg (not_lt.mpr (by rw [hdar]; exact hcap))]
      show Except.ok (u.virtual_balance - amount + amount) = Except.ok u.virtual_balance
      rw [sub_add_cancel]
    · show Except.map UserState.balance
        (UserState.deposit _ amount .virtual_balance now) = .ok u.balance
      unfold UserState.deposit
      rw [if_neg (not_lt.mpr (by rw [hdar]; exact hcap))]
      rfl

/-- Witness for the amended C4: a real round-trip of `8` on a funded account
and a virtual round-trip of `50` under the cap both succeed and restore the
balances. -/
theorem C4_roundtrip_amended_witness :
    ((statsUser.withdraw 8 .balance).1 = true ∧
     Except.map UserState.balance
       ((statsUser.withdraw 8 .balance).2.deposit 8 .balance 0) = .ok statsUser.balance) ∧
    ((virtualRich.withdraw 50 .virtual_balance).1 = true ∧
     Except.map UserState.virtual_balance
       ((virtualRich.withdraw 50 .virtual_balance).2.deposit 50 .virtual_balance 3600) =
       .ok virtualRich.virtual_balance) := by
  have h1 := (C4_roundtrip_amended statsUser 8 0 (by norm_num)).1
    (by norm_num [statsUser, freshUser])
  have h2 := (C4_roundtrip_amended virtualRich 50 3600 (by norm_num)).2
    (by norm_num [virtualRich, freshUser])
    (by norm_num [virtualRich, freshUser, dailyAfterReset, DAILY_VIRTUAL_LIMIT,
      VIRTUAL_DEPOSIT_RESET])
  exact ⟨⟨h1.1, h1.2.1⟩, ⟨h2.1, h2.2.1⟩⟩

/-- Claim C7: for the crash-point generator over the configured band table,
the draw `r = 0` yields exactly `1.01` (the clamped floor); as `r` approaches
the first band's cumulative probability `0.10` from below the result
approaches the first threshold `1.1`; and every draw in `[0, 1)` yields a
crash point of at least `1.01`. -/
theorem C7_crash_point :
    crash_point 0 = 101/100 ∧
    (∀ ε : ℚ, 0 < ε → ∃ δ : ℚ, 0 < δ ∧ ∀ r : ℚ, 1/10 - δ < r → r < 1/10 →
      |crash_point r - 11/10| < ε) ∧
    (∀ r : ℚ, 0 ≤ r → r < 1 → 101/100 ≤ crash_point r) := by
  refine ⟨?_, ?_, fun r _ _ => crash_point_ge r⟩
  · rw [crash_point_first_band 0 (by norm_num)]
    norm_num
  · intro ε hε
    refine ⟨min ε (1/20), lt_min hε (by norm_num), fun r hr1 hr2 => ?_⟩
    have hδε : min ε (1/20) ≤ ε := min_le_left _ _
    have hδ2 : min ε (1/20) ≤ 1/20 := min_le_right _ _
    have hmax : crash_point r = 1 + r := by
      rw [crash_point_first_band r (le_of_lt hr2)]
      exact max_eq_left (by linarith)
    rw [hmax, abs_of_nonpos (by linarith)]
    linarith

/-- Witness for C7: the clamped floor at `r = 0` and the lower bound at a
sample draw `r = 1/2`. -/
theorem C7_crash_point_witness :
    crash_point 0 = 101/100 ∧ 101/100 ≤ crash_point (1/2) :=
  ⟨C7_crash_point.1, C7_crash_point.2.2 (1/2) (by norm_num) (by norm_num)⟩

/-- Counterexample to claim C1 as stated: user `1` owns a live rocket
session, yet starting a matrix game is not rejected — the stake is withdrawn
(balance drops from `100` to `90`), a matrix session is created, and the
rocket session is still there, so the user now holds two active sessions
across game kinds. -/
theorem C1_counterexample :
    (matrix_bet stateWithRocket 1 10).active_rocket_games 1 = some rocketSession0 ∧
    (matrix_bet stateWithRocket 1 10).active_matrix_games 1 =
      some { bet := 10, current_level := 0, balance_type := .balance } ∧
    ((matrix_bet stateWithRocket 1 10).users 1).balance = 90 := by
  have hm : matrix_bet stateWithRocket 1 10 =
      (stateWithRocket.saveUser 1
        (((stateWithRocket.users 1).withdraw 10
          (activeBt (stateWithRocket.users 1))).2.add_bet 10)).setMatrix
        1 (some { bet := 10, current_level := 0,
                  balance_type := activeBt (stateWithRocket.users 1) }) := by
    simp only [matrix_bet]
    rw [if_neg (by norm_num [MIN_BET]), if_neg (by norm_num [MAX_BET]),
      if_neg (by norm_num [stateWithRocket, initialState, funded100, freshUser,
        activeBt, UserState.getBalance])]
  refine ⟨?_, ?_, ?_⟩
  · rw [hm]
    simp [stateWithRocket, initialState]
  · rw [hm]
    simp [stateWithRocket, initialState, funded100, freshUser, activeBt]
  · rw [hm]
    simp [stateWithRocket, initialState, funded100, freshUser, activeBt,
      UserState.withdraw, UserState.getBalance, UserState.add_bet]
    norm_num

/-- Claim C1 (amended): sessions are keyed per game kind — at most one
session of each kind per user, but sessions of different kinds may coexist.
Starting a rocket game while a rocket session is active is not rejected with
an error: the handler deletes the existing session up front (before even
validating the new bet), so its result never depends on the prior rocket
session.  Starting a matrix game never consults the rocket or dice
registries: a valid funded bet creates the matrix session alongside any
session of another kind. -/
theorem C1_amended (s : GlobalState) (uid : ℤ) (bet rand mbet : ℚ)
    (hmin : MIN_BET ≤ mbet) (hmax : mbet ≤ MAX_BET)
    (hbal : mbet ≤ (s.users uid).getBalance (activeBt (s.users uid))) :
    rocket_bet s uid bet rand = rocket_bet (s.setRocket uid none) uid bet rand ∧
    (matrix_bet s uid mbet).active_rocket_games = s.active_rocket_games ∧
    (matrix_bet s uid mbet).active_dice_games = s.active_dice_games ∧
    (matrix_bet s uid mbet).active_matrix_games uid =
      some { bet := mbet, current_level := 0,
             balance_type := activeBt (s.users uid) } := by
  have hm : matrix_bet s uid mbet =
      (s.saveUser uid
        (((s.users uid).withdraw mbet (activeBt (s.users uid))).2.add_bet mbet)).setMatrix
        uid (some { bet := mbet, current_level := 0,
                    balance_type := activeBt (s.users uid) }) := by
    simp only [matrix_bet]
    rw [if_neg (not_lt.mpr hmin), if_neg (not_lt.mpr hmax), if_neg (not_lt.mpr hbal)]
  refine ⟨?_, ?_, ?_, ?_⟩
  · unfold rocket_bet
    rw [setRocket_setRocket]
  · rw [hm]
    rfl
  · rw [hm]
    rfl
  · rw [hm]
    simp

/-- Claim C3: for an external invoice reported paid whose local record still
has `paid = false`, one reconciliation poll credits the owner's ledger by
exactly the invoice amount and marks the record paid (both before any further
action — the notification and the remaining items are processed only
afterwards); and a second poll over the same response — indeed any repeated
poll — changes nothing, so the ledger is credited exactly once. -/
theorem C3_reconcile_once (s : GlobalState) (id : ℕ) (uid : ℤ) (amt : ℚ) (now : ℚ)
    (hinv : s.active_invoices id = some { user_id := uid, amount := amt, paid := false }) :
    ((check_invoices s [(id, true)] now).users uid).balance =
      (s.users uid).balance + amt ∧
    (check_invoices s [(id, true)] now).active_invoices id =
      some { user_id := uid, amount := amt, paid := true } ∧
    (∀ items n1 n2, check_invoices (check_invoices s items n1) items n2 =
      check_invoices s items n1) := by
  have hstep : check_invoices s [(id, true)] now =
      (s.saveUser uid
        { s.users uid with balance := (s.users uid).balance + amt }).setInvoice id
        { user_id := uid, amount := amt, paid := true } := by
    show check_invoice_step now s (id, true) = _
    unfold check_invoice_step
    rw [if_pos rfl, hinv]
    dsimp only
    rw [if_neg (by simp)]
    rfl
  refine ⟨?_, ?_, fun items n1 n2 => check_invoices_idem items s n1 n2⟩
  · rw [hstep]
    simp
  · rw [hstep]
    simp

/-- Witness for C3 at the concrete pending invoice (id `11`, owner `5`,
amount `25`). -/
theorem C3_reconcile_once_witness :
    ((check_invoices stateWithInvoice [(11, true)] 0).users 5).balance =
      (stateWithInvoice.users 5).balance + 25 ∧
    (check_invoices stateWithInvoice [(11, true)] 0).active_invoices 11 =
      some { user_id := 5, amount := 25, paid := true } ∧
    check_invoices (check_invoices stateWithInvoice [(11, true)] 0) [(11, true)] 1 =
      check_invoices stateWithInvoice [(11, true)] 0 := by
  have h := C3_reconcile_once stateWithInvoice 11 5 25 0
    (by simp [stateWithInvoice, initialState])
  exact ⟨h.1, h.2.1, h.2.2 [(11, true)] 0 1⟩

/-- Claim C8: in the ladder game, the cash-out control on a level-0 session
is the `matrix_disabled` callback (main.py line 1126), which the handler
rejects with an alert and no payout or state change; and a session whose
level reaches the end of the multiplier table auto-settles inside the level
renderer — without any further owner action — at the last table entry, which
is the maximum configured multiplier: the session is removed and the owner
is credited `bet * MATRIX_MULTIPLIERS[-1]`. -/
theorem C8_ladder (s : GlobalState) (uid : ℤ) (g : MatrixGame) (now : ℚ)
    (hg : s.active_matrix_games uid = some g) :
    (g.current_level = 0 → matrix_choice s uid .disabled now = s) ∧
    (∀ u', g.current_level + 1 = MATRIX_MULTIPLIERS.length →
      (s.users uid).deposit (g.bet * MATRIX_MULTIPLIERS.getLastD 1) g.balance_type now =
        .ok u' →
      (matrix_choice s uid .correct now).active_matrix_games uid = none ∧
      ((matrix_choice s uid .correct now).users uid).getBalance g.balance_type =
        (s.users uid).getBalance g.balance_type + g.bet * MATRIX_MULTIPLIERS.getLastD 1 ∧
      ((matrix_choice s uid .correct now).users uid).total_wins =
        (s.users uid).total_wins + g.bet * MATRIX_MULTIPLIERS.getLastD 1) ∧
    (∀ x ∈ MATRIX_MULTIPLIERS, x ≤ MATRIX_MULTIPLIERS.getLastD 1) := by
  refine ⟨?_, ?_, matrix_multipliers_last_max⟩
  · intro h0
    unfold matrix_choice
    rw [hg]
  · intro u' hN hdep
    have hfinal : matrix_choice s uid .correct now =
        ((s.setMatrix uid (some { g with current_level := g.current_level + 1 })).saveUser
          uid (u'.add_win (g.bet * MATRIX_MULTIPLIERS.getLastD 1))).setMatrix uid none := by
      unfold matrix_choice
      rw [hg]
      dsimp only
      unfold show_matrix_level
      rw [setMatrix_matrix, if_pos rfl]
      dsimp only
      rw [if_pos (le_of_eq hN.symm)]
      rw [setMatrix_users, hdep]
    obtain ⟨hbal, hwins, -, -, -, -, -⟩ := deposit_ok_fields _ _ _ _ _ hdep
    have haddbal : (u'.add_win (g.bet * MATRIX_MULTIPLIERS.getLastD 1)).getBalance
        g.balance_type = u'.getBalance g.balance_type := by
      cases g.balance_type <;> rfl
    refine ⟨?_, ?_, ?_⟩
    · rw [hfinal]
      simp
    · rw [hfinal]
      rw [setMatrix_users, saveUser_users, if_pos rfl, haddbal, hbal]
    · rw [hfinal]
      rw [setMatrix_users, saveUser_users, if_pos rfl]
      show u'.total_wins + g.bet * MATRIX_MULTIPLIERS.getLastD 1 = _
      rw [hwins]

/-- Witness for C8: the level-0 session of user `4` rejects the disabled
cash-out, and the last-level session of user `7` auto-settles on the next
safe step. -/
theorem C8_ladder_witness :
    matrix_choice stateMatrixZero 4 .disabled 0 = stateMatrixZero ∧
    (matrix_choice stateMatrixLast 7 .correct 0).active_matrix_games 7 = none ∧
    ((matrix_choice stateMatrixLast 7 .correct 0).users 7).getBalance
        matrixLastLevel.balance_type =
      (stateMatrixLast.users 7).getBalance matrixLastLevel.balance_type +
        matrixLastLevel.bet * MATRIX_MULTIPLIERS.getLastD 1 := by
  have hA := C8_ladder stateMatrixZero 4 matrixLevel0 0
    (by simp [stateMatrixZero, initialState])
  have hB := C8_ladder stateMatrixLast 7 matrixLastLevel 0
    (by simp [stateMatrixLast, initialState])
  have hsettle := hB.2.1
    { funded100 with
      balance := funded100.balance + matrixLastLevel.bet * MATRIX_MULTIPLIERS.getLastD 1 }
    (by rw [matrix_multipliers_length]; rfl) rfl
  exact ⟨hA.1 rfl, hsettle.1, hsettle.2.1⟩

/-- Claim C9: a dice session staked `10` on the real balance with bet type
exact-face 4, when the roll is 4: the stake placement debits `10` and raises
the total-wagered statistic by exactly `10`; the win pays exactly `60`
(`10 × 6.0`), crediting the real balance by `60` and the total-won statistic
by `60`. -/
theorem C9_dice_scenario (s : GlobalState) (uid : ℤ) (now : ℚ)
    (hb : 10 ≤ (s.users uid).balance)
    (hv : (s.users uid).use_virtual = false) :
    ((dice_bet s uid 10).users uid).total_bets = (s.users uid).total_bets + 10 ∧
    ((dice_bet s uid 10).users uid).balance = (s.users uid).balance - 10 ∧
    (dice_bet s uid 10).active_dice_games uid =
      some { bet := 10, balance_type := .balance } ∧
    (dice_choice (dice_bet s uid 10) uid (.exact 4) 4 now).2 = some 60 ∧
    ((dice_choice (dice_bet s uid 10) uid (.exact 4) 4 now).1.users uid).balance =
      ((dice_bet s uid 10).users uid).balance + 60 ∧
    ((dice_choice (dice_bet s uid 10) uid (.exact 4) 4 now).1.users uid).total_wins =
      ((dice_bet s uid 10).users uid).total_wins + 60 := by
  have hact : activeBt (s.users uid) = .balance := by
    unfold activeBt
    rw [hv]
    rfl
  have hbet : dice_bet s uid 10 =
      (s.saveUser uid (((s.users uid).withdraw 10 .balance).2.add_bet 10)).setDice uid
        (some { bet := 10, balance_type := .balance }) := by
    simp only [dice_bet]
    rw [hact]
    rw [if_neg (by norm_num [MIN_BET]), if_neg (by norm_num [MAX_BET]),
      if_neg (not_lt.mpr (by rw [getBalance_balance]; exact hb))]
  have hu2 : ((s.users uid).withdraw 10 .balance).2.add_bet 10 =
      { s.users uid with
        balance := (s.users uid).balance - 10,
        total_bets := (s.users uid).total_bets + 10,
        games_played := (s.users uid).games_played + 1 } := by
    rw [withdraw_balance_eq (s.users uid) 10 hb]
    rfl
  have hg1 : (dice_bet s uid 10).active_dice_games uid =
      some { bet := 10, balance_type := .balance } := by
    rw [hbet]
    simp
  have hchoice := dice_choice_exact_win (dice_bet s uid 10) uid 4 4
    { bet := 10, balance_type := .balance } now hg1 rfl rfl
  refine ⟨?_, ?_, hg1, ?_, ?_, ?_⟩
  · rw [hbet, hu2]
    simp
  · rw [hbet, hu2]
    simp
  · rw [hchoice]
    show some ((10:ℚ) * 6) = some 60
    norm_num
  · rw [hchoice]
    rw [setDice_users, saveUser_users, if_pos rfl]
    show ((dice_bet s uid 10).users uid).balance + (10:ℚ) * 6 = _
    norm_num
  · rw [hchoice]
    rw [setDice_users, saveUser_users, if_pos rfl]
    show ((dice_bet s uid 10).users uid).total_wins + (10:ℚ) * 6 = _
    norm_num

/-- Witness for C9 from the funded account of user `3`. -/
theorem C9_dice_scenario_witness :
    ((dice_bet stateWithRocket 3 10).users 3).total_bets =
      (stateWithRocket.users 3).total_bets + 10 ∧
    (dice_choice (dice_bet stateWithRocket 3 10) 3 (.exact 4) 4 0).2 = some 60 ∧
    ((dice_choice (dice_bet stateWithRocket 3 10) 3 (.exact 4) 4 0).1.users 3).balance =
      ((dice_bet stateWithRocket 3 10).users 3).balance + 60 := by
  have h := C9_dice_scenario stateWithRocket 3 0
    (by norm_num [stateWithRocket, initialState, funded100, freshUser])
    (by norm_num [stateWithRocket, initialState, funded100, freshUser])
  exact ⟨h.1, h.2.2.2.1, h.2.2.2.2.1⟩

/-- Claim C10: winnings of a virtual-balance session are paid through the
same daily-cap-checked `User.deposit` as ordinary virtual issuance.
Whenever the win amount plus the account's current daily issuance counter
(within the current window) exceeds the cap of `100`, crediting the win
raises the limit error and the win is never credited: the rocket cash-out
leaves the user record untouched (only flagging the session resolved) and
reports the error, the matrix cash-out and the winning dice choice leave the
whole state unchanged — while the stake itself was already withdrawn from the
virtual balance when the session started. -/
theorem C10_virtual_win_capped (s : GlobalState) (uid : ℤ) (now : ℚ) :
    (∀ g : RocketGame, s.active_rocket_games uid = some g → g.crashed = false →
      g.balance_type = .virtual_balance →
      DAILY_VIRTUAL_LIMIT < dailyAfterReset (s.users uid) now + g.bet * g.multiplier →
      (rocket_cashout s uid now).1.users uid = s.users uid ∧
      (rocket_cashout s uid now).1.active_rocket_games uid =
        some { g with crashed := true } ∧
      ∃ tl, (rocket_cashout s uid now).2 = .depositError (.limitExceeded tl)) ∧
    (∀ g : MatrixGame, s.active_matrix_games uid = some g →
      g.balance_type = .virtual_balance →
      ∀ hlt : g.current_level < MATRIX_MULTIPLIERS.length,
      DAILY_VIRTUAL_LIMIT < dailyAfterReset (s.users uid) now +
        g.bet * MATRIX_MULTIPLIERS.getD g.current_level 0 →
      matrix_choice s uid .cashout now = s) ∧
    (∀ g : DiceGame, s.active_dice_games uid = some g →
      g.balance_type = .virtual_balance →
      ∀ c roll, diceWinCondition c roll = true →
      DAILY_VIRTUAL_LIMIT < dailyAfterReset (s.users uid) now +
        g.bet * DICE_MULTIPLIERS (diceBetType c) →
      dice_choice s uid c roll now = (s, none)) ∧
    (∀ s' : GlobalState, ∀ bet rand : ℚ,
      (s'.users uid).use_virtual = true →
      MIN_BET ≤ bet → bet ≤ MAX_BET → bet ≤ (s'.users uid).virtual_balance →
      ((rocket_bet s' uid bet rand).users uid).virtual_balance =
        (s'.users uid).virtual_balance - bet) := by
  refine ⟨?_, ?_, ?_, ?_⟩
  · intro g hg hcr hbt hcap
    have hres : rocket_cashout s uid now =
        (s.setRocket uid (some { g with crashed := true }),
         .depositError (.limitExceeded (VIRTUAL_DEPOSIT_RESET -
           (match (s.users uid).last_virtual_deposit_time with
            | some last => now - last
            | none => 0)))) := by
      unfold rocket_cashout
      rw [hg]
      dsimp only
      rw [if_neg (by simp [hcr])]
      rw [hbt, deposit_virtual_cap_error _ _ _ hcap]
    refine ⟨?_, ?_, ?_⟩
    · rw [hres]
      rfl
    · rw [hres]
      simp
    · rw [hres]
      exact ⟨_, rfl⟩
  · intro g hg hbt hlt hcap
    unfold matrix_choice
    rw [hg]
    dsimp only
    rw [dif_pos hlt]
    rw [hbt, deposit_virtual_cap_error _ _ _
      (by rw [← List.getD_eq_get MATRIX_MULTIPLIERS 0 hlt]; exact hcap)]
  · intro g hg hbt c roll hwc hcap
    unfold dice_choice
    rw [hg]
    dsimp only
    rw [if_pos hwc]
    rw [hbt, deposit_virtual_cap_error _ _ _ hcap]
  · intro s' bet rand hv hmin hmax hbal
    have hact : activeBt (s'.users uid) = .virtual_balance := by
      unfold activeBt
      rw [hv]
      rfl
    have hru : rocket_bet s' uid bet rand =
        ((s'.setRocket uid none).saveUser uid
          (((s'.users uid).withdraw bet .virtual_balance).2.add_bet bet)).setRocket uid
          (some { bet := bet, multiplier := 1, crashed := false,
                  crash_target := crash_point rand,
                  balance_type := BalanceType.virtual_balance }) := by
      simp only [rocket_bet]
      rw [setRocket_users, hact]
      rw [if_neg (not_lt.mpr hmin), if_neg (not_lt.mpr hmax),
        if_neg (not_lt.mpr (by rw [getBalance_virtual]; exact hbal))]
    rw [hru]
    rw [setRocket_users, saveUser_users, if_pos rfl]
    rw [withdraw_virtual_eq _ _ hbal]
    rfl

/-- Witness for C10 at the near-cap virtual account of user `2`: all three
capped settlements refuse the credit, and the rocket stake placement debits
the virtual balance. -/
theorem C10_virtual_win_capped_witness :
    (rocket_cashout stateVirtualGames 2 100).1.users 2 = stateVirtualGames.users 2 ∧
    matrix_choice stateVirtualGames 2 .cashout 100 = stateVirtualGames ∧
    dice_choice stateVirtualGames 2 (.exact 5) 5 100 = (stateVirtualGames, none) ∧
    ((rocket_bet stateVirtualGames 2 10 (1/2)).users 2).virtual_balance =
      (stateVirtualGames.users 2).virtual_balance - 10 := by
  have h := C10_virtual_win_capped stateVirtualGames 2 100
  have hlt : (3:ℕ) < MATRIX_MULTIPLIERS.length := by
    rw [matrix_multipliers_length]
    norm_num
  have hrocket := h.1
    { bet := 10, multiplier := 3/2, crashed := false, crash_target := 2,
      balance_type := BalanceType.virtual_balance } rfl rfl rfl
    (by norm_num [stateVirtualGames, virtualNearCap, freshUser, dailyAfterReset,
      DAILY_VIRTUAL_LIMIT, VIRTUAL_DEPOSIT_RESET])
  have hmatrix := h.2.1
    { bet := 10, current_level := 3, balance_type := BalanceType.virtual_balance }
    rfl rfl hlt
    (by norm_num [stateVirtualGames, virtualNearCap, freshUser, dailyAfterReset,
      DAILY_VIRTUAL_LIMIT, VIRTUAL_DEPOSIT_RESET, matrix_multipliers_eq,
      List.getD_cons_succ, List.getD_cons_zero])
  have hdice := h.2.2.1
    { bet := 10, balance_type := BalanceType.virtual_balance } rfl rfl
    (.exact 5) 5 rfl
    (by norm_num [stateVirtualGames, virtualNearCap, freshUser, dailyAfterReset,
      DAILY_VIRTUAL_LIMIT, VIRTUAL_DEPOSIT_RESET, DICE_MULTIPLIERS, diceBetType])
  have hstake := h.2.2.2 stateVirtualGames 10 (1/2) rfl
    (by norm_num [MIN_BET]) (by norm_num [MAX_BET])
    (by norm_num [stateVirtualGames, virtualNearCap, freshUser])
  exact ⟨hrocket.1, hmatrix, hdice, hstake⟩

/-- Witness for the amended C1 at the concrete state with a live rocket
session. -/
theorem C1_amended_witness :
    rocket_bet stateWithRocket 1 7 (1/2) =
      rocket_bet (stateWithRocket.setRocket 1 none) 1 7 (1/2) ∧
    (matrix_bet stateWithRocket 1 10).active_rocket_games =
      stateWithRocket.active_rocket_games ∧
    (matrix_bet stateWithRocket 1 10).active_matrix_games 1 =
      some { bet := 10, current_level := 0,
             balance_type := activeBt (stateWithRocket.users 1) } := by
  have h := C1_amended stateWithRocket 1 7 (1/2) 10
    (by norm_num [MIN_BET]) (by norm_num [MAX_BET])
    (by norm_num [stateWithRocket, initialState, funded100, freshUser, activeBt,
      UserState.getBalance])
  exact ⟨h.1, h.2.1, h.2.2.2⟩

end Claims

end Casa
